import Mathlib

/-!
Verification of the LandNOA agent system (registry, host agent, specialist
anchoring engine) against its natural-language specification.

The definitions below are a shallow embedding of the TypeScript sources:
  - `registry.ts`   : the Registry service (Redis-backed mode and the
                      in-process fallback mode),
  - the host agent  : discovery cache, heuristic router, capabilities
                      queries and the health-gated dispatcher,
  - the AI-guide specialist agent : the anchoring engine of `/execute`
                      (`monitoramento.ts` / the agent entrypoint).

Machine floats of the source are idealized as real numbers; JavaScript
strings are Lean `String`s, and the ASCII-level string helpers used by the
code (`toLowerCase`, `trim`, `includes`, `startsWith`) are re-implemented
over character lists so that they evaluate inside the kernel.
-/

set_option maxHeartbeats 1600000
set_option maxRecDepth 100000

namespace LandNOA

/-! ## String helpers (JS `includes`, `startsWith`, `toLowerCase`, `trim`) -/

/-- Does `l` contain `pat` as a contiguous sublist?  (JS `String.prototype.includes`
on the character level: the empty pattern is contained in everything.) -/
def listContainsSublist (l pat : List Char) : Bool :=
  (List.range (l.length + 1)).any (fun i => ((l.drop i).take pat.length) == pat)

/-- JS `s.includes(pat)`. -/
def strIncludes (s pat : String) : Bool :=
  listContainsSublist s.toList pat.toList

/-- JS `s.startsWith(pre)` (used for the Redis key pattern `agent:*`). -/
def strStartsWith (s pre : String) : Bool :=
  s.toList.take pre.length == pre.toList

/-- JS `s.toLowerCase()` restricted to ASCII letters. -/
def lowerStr (s : String) : String :=
  ⟨s.toList.map Char.toLower⟩

def isJsWhitespace (c : Char) : Bool :=
  c == ' ' || c == '\t' || c == '\n' || c == '\r'

/-- JS `s.trim()` (ASCII whitespace). -/
def trimStr (s : String) : String :=
  ⟨((s.toList.dropWhile isJsWhitespace).reverse.dropWhile isJsWhitespace).reverse⟩

/-- Update the first binding of key `k` in an association list, or append a new
binding; this is JS object assignment `obj[k] = v`, which keeps the position of
an existing key (`Object.entries` iterates in insertion order). -/
def setKey {α : Type} (k : String) (v : α) : List (String × α) → List (String × α)
  | [] => [(k, v)]
  | (k', v') :: rest => if k' = k then (k, v) :: rest else (k', v') :: setKey k v rest

/-! ## Registry service (`registry.ts`)

The registry runs in one of two modes: Redis-backed (`redisClient` non-null)
or the in-process fallback `inMemoryAgents`.  Both are modeled below.
Time is in seconds for the Redis mode (`expire` takes seconds) and in
milliseconds inside the in-memory records (`Date.now() + HEARTBEAT_TTL * 1000`).
-/

/-- A tool as supplied by an agent at registration (`tools` array elements). -/
structure RTool where
  name : String
  description : String
deriving DecidableEq

/-- The body of `POST /register`; `tools := none` models a body whose `tools`
is not an array (`Array.isArray(tools)` false). -/
structure RegPayload where
  agent_id : String
  base_url : String
  secret_token : String
  tools : Option (List RTool)
deriving DecidableEq

inductive RegResponse where
  | ok (message : String)
  | err (status : Nat) (message : String)
deriving DecidableEq

/-- The public projection `list_agents` exposes per agent. -/
structure PubInfo where
  base_url : String
  tools : List RTool
deriving DecidableEq

/-- `Dados de registro incompletos.` -/
def validPayload (p : RegPayload) : Prop :=
  trimStr p.agent_id ≠ "" ∧ trimStr p.base_url ≠ "" ∧
  trimStr p.secret_token ≠ "" ∧ p.tools.isSome

instance (p : RegPayload) : Decidable (validPayload p) := by
  unfold validPayload; infer_instance

/-! ### In-memory fallback mode -/

/-- A record of `inMemoryAgents`: `ttl` is the absolute expiry instant in
milliseconds (`Date.now() + HEARTBEAT_TTL * 1000`). -/
structure MemRecord where
  base_url : String
  tools : List RTool
  secret_token : String
  ttl : Nat
deriving DecidableEq

abbrev MemState := List (String × MemRecord)

/-- `POST /register`, in-memory branch.  `ttlS` is `HEARTBEAT_TTL` (seconds),
`now` is `Date.now()` in milliseconds. -/
def registerMem (ttlS now : Nat) (p : RegPayload) (s : MemState) :
    MemState × RegResponse :=
  let agentId := trimStr p.agent_id
  let baseUrl := trimStr p.base_url
  let secretToken := trimStr p.secret_token
  match p.tools with
  | none => (s, .err 400 "Dados de registro incompletos.")
  | some tools =>
    if agentId = "" ∨ baseUrl = "" ∨ secretToken = "" then
      (s, .err 400 "Dados de registro incompletos.")
    else
      (setKey agentId ⟨baseUrl, tools, secretToken, now + ttlS * 1000⟩ s,
       .ok ("Agente " ++ agentId ++ " registrado com sucesso."))

/-- `GET /list_agents`, in-memory branch: iterates `Object.entries(inMemoryAgents)`
and copies `base_url` and `tools` into the output object.  Note that neither
the stored `ttl` field nor the current time is consulted. -/
def listMem (s : MemState) : List (String × PubInfo) :=
  s.foldl (fun out e => setKey e.1 ⟨e.2.base_url, e.2.tools⟩ out) []

/-! ### Redis-backed mode -/

/-- A Redis value written by the registry: the JSON public payload under an
`agent:` key, or the bare secret token under a `secret:` key. -/
inductive RVal where
  | data (base_url : String) (tools : List RTool)
  | secret (tok : String)
deriving DecidableEq

/-- One Redis key with its value and optional absolute expiry (seconds). -/
structure REntry where
  key : String
  val : RVal
  exp : Option Nat
deriving DecidableEq

abbrev RedisState := List REntry

def dataKey (agentId : String) : String := "agent:" ++ agentId

def secretKey (agentId : String) : String := "secret:" ++ agentId

/-- Redis `SET`: overwrites the value and clears any TTL (or appends a fresh
persistent key). -/
def redisSet (k : String) (v : RVal) : RedisState → RedisState
  | [] => [⟨k, v, none⟩]
  | e :: rest => if e.key = k then ⟨k, v, none⟩ :: rest else e :: redisSet k v rest

/-- Redis `EXPIRE key ttl` issued at `now`: sets the absolute deadline of an
existing key; a missing key is untouched. -/
def redisExpire (k : String) (deadline : Nat) : RedisState → RedisState
  | [] => []
  | e :: rest =>
    if e.key = k then ⟨e.key, e.val, some deadline⟩ :: rest
    else e :: redisExpire k deadline rest

/-- Is the entry still visible at time `now`?  (Redis drops a key once its
deadline is reached.) -/
def liveEntry (now : Nat) (e : REntry) : Bool :=
  match e.exp with
  | none => true
  | some d => now < d

/-- `POST /register`, Redis branch: `SET` of the public payload and of the
secret, then `EXPIRE HEARTBEAT_TTL` on both keys. -/
def registerRedis (ttlS now : Nat) (p : RegPayload) (s : RedisState) :
    RedisState × RegResponse :=
  let agentId := trimStr p.agent_id
  let baseUrl := trimStr p.base_url
  let secretToken := trimStr p.secret_token
  match p.tools with
  | none => (s, .err 400 "Dados de registro incompletos.")
  | some tools =>
    if agentId = "" ∨ baseUrl = "" ∨ secretToken = "" then
      (s, .err 400 "Dados de registro incompletos.")
    else
      let s1 := redisSet (dataKey agentId) (.data baseUrl tools) s
      let s2 := redisSet (secretKey agentId) (.secret secretToken) s1
      let s3 := redisExpire (dataKey agentId) (now + ttlS) s2
      let s4 := redisExpire (secretKey agentId) (now + ttlS) s3
      (s4, .ok ("Agente " ++ agentId ++ " registrado com sucesso."))

/-- The loop body of `GET /list_agents`, Redis branch.  Each live `agent:` key
is read and its JSON payload parsed; a non-JSON value (a secret stored under an
`agent:` key, impossible through the API) would make `JSON.parse` throw, which
the surrounding `try` turns into returning the part built so far. -/
def listRedisGo : List REntry → List (String × PubInfo) → List (String × PubInfo)
  | [], out => out
  | e :: rest, out =>
    match e.val with
    | .data b t => listRedisGo rest (setKey (e.key.drop 6) ⟨b, t⟩ out)
    | .secret _ => out

/-- `GET /list_agents`, Redis branch: `KEYS agent:*` only returns keys that
are still live at `now`, then each is fetched and projected to
`{base_url, tools}` (`e.key.drop 6` is `k.replace('agent:', '')`). -/
def listRedis (now : Nat) (s : RedisState) : List (String × PubInfo) :=
  listRedisGo (s.filter (fun e => strStartsWith e.key "agent:" && liveEntry now e)) []

/-! ## Host agent (discovery cache, router, capabilities, dispatcher) -/

/-- A flattened capability of the discovery snapshot: a registered tool with
the `owner_agent_id` and `agent_execute_url` fields the host adds. -/
structure HTool where
  name : String
  description : String
  owner_agent_id : String
  agent_execute_url : String
deriving DecidableEq

/-- A per-agent record of the snapshot, as returned by `list_agents`. -/
structure AgentInfo where
  base_url : String
  tools : List RTool
deriving DecidableEq

/-- The host's module-level discovery state (`discoveredTools`,
`discoveredAgentsData`), replaced wholesale by each successful refresh. -/
structure HostState where
  discoveredTools : List HTool
  discoveredAgentsData : List (String × AgentInfo)
deriving DecidableEq

/-- `fetchToolsFromRegistry`: `reply := none` models an unreachable Registry
(`axios.get` throws and the `catch` only logs, leaving both module variables
untouched); `some registered` is the parsed `list_agents` body, flattened into
the new snapshot. -/
def fetchToolsFromRegistry (reply : Option (List (String × AgentInfo)))
    (s : HostState) : HostState :=
  match reply with
  | none => s
  | some registered =>
    let allTools := registered.foldl
      (fun acc a => acc ++ a.2.tools.map
        (fun t => HTool.mk t.name t.description a.1 (a.2.base_url ++ "/execute")))
      []
    ⟨allTools, registered⟩

/-- The routing decision forwarded to the dispatcher. -/
structure Decision where
  tool_to_use : String
  owner_agent_id : String
  agent_execute_url : String
deriving DecidableEq

def aiKw : List String :=
  ["inteligencia artificial", "ia", "ai", "ética", "etica", "modelo de ia"]

def bioKw : List String := ["biologia", "ecologia", "biologo"]

/-- The AI-domain capability test of `heuristicRoute`. -/
def aiToolPred (t : HTool) : Bool :=
  strIncludes (lowerStr t.name) "guia" || strIncludes (lowerStr t.description) "ia"

/-- The biology-domain capability test of `heuristicRoute`. -/
def bioToolPred (t : HTool) : Bool :=
  strIncludes (lowerStr t.name) "biolog" || strIncludes (lowerStr t.description) "biolog"

/-- `heuristicRoute`: lower-case the query, test the AI keyword set and, on a
match, return the first tool passing `aiToolPred`; when that yields nothing
(no AI keyword, or an AI keyword but no matching tool), fall through to the
biology keyword set and `bioToolPred`; otherwise no decision. -/
def heuristicRoute (query : String) (tools : List HTool) : Option Decision :=
  if query = "" ∨ tools = [] then none
  else
    let q := lowerStr query
    match (if aiKw.any (fun k => strIncludes q k) then tools.find? aiToolPred else none) with
    | some t => some ⟨t.name, t.owner_agent_id, t.agent_execute_url⟩
    | none =>
      match (if bioKw.any (fun k => strIncludes q k) then tools.find? bioToolPred else none) with
      | some t => some ⟨t.name, t.owner_agent_id, t.agent_execute_url⟩
      | none => none

def capabilitiesKeywords : List String :=
  ["o que voce faz", "quais agentes", "ferramentas disponiveis", "capacidades", "o que pode"]

/-- `isCapabilitiesQuery`: trimmed, lower-cased query containing any of the
fixed keywords. -/
def isCapabilitiesQuery (text : String) : Bool :=
  if text = "" then false
  else capabilitiesKeywords.any (fun k => strIncludes (lowerStr (trimStr text)) k)

/-- One entry of the `agents` array of a capabilities response. -/
structure CapAgent where
  agent_id : String
  base_url : String
  tools : List RTool
deriving DecidableEq

/-- `formatCapabilitiesResponse`: the human-readable listing and the `agents`
array built from `discoveredAgentsData`. -/
def formatCapabilitiesResponse (s : HostState) : String × List CapAgent :=
  let agents := s.discoveredAgentsData.map (fun a => CapAgent.mk a.1 a.2.base_url a.2.tools)
  let text := agents.foldl
    (fun acc a => a.tools.foldl
      (fun acc2 t => acc2 ++ "   • " ++ t.name ++ ": " ++ t.description ++ "\n")
      (acc ++ "- " ++ a.agent_id ++ "\n"))
    "Posso coordenar os seguintes agentes e ferramentas:\n"
  (text, agents)

/-- `delegateToLLM` is a stub in the source: it always returns no decision. -/
def delegateToLLM (_query : String) : Option Decision := none

/-- An outbound call of the `/query` handler, recorded in order. -/
inductive Effect where
  | probe (url : String)
  | deregister (agent_id : String)
  | forward (url : String) (query : String)
deriving DecidableEq

/-- The specialist's reply body, as consumed by the host (`result`/`answer`). -/
structure SpecResult where
  result : String
deriving DecidableEq

/-- The host's `/query` response envelope. -/
inductive HResponse where
  | okCapabilities (answer : String) (agents : List CapAgent)
  | okAnswer (answer : String) (source_agent_id : String) (source_tool : String)
  | error (status : Nat) (message : String)
deriving DecidableEq

def explicacaoFallback : String :=
  "Olá! Sou o agente Host. Quando nao encontro um agente ideal, posso mostrar quem esta disponivel agora:\n\n"

/-- The `POST /query` handler after its initial `fetchToolsFromRegistry` call
(`s` is the refreshed state).  `healthOk` is the outcome of `GET base_url/health`
(true = 2xx within the 2s timeout); `deregOk` is the outcome of the best-effort
`requestDeregistration` call, whose failure the source catches and only logs;
`forwardResult` is the specialist's reply to the forwarded A2AMessage (`none` =
transport failure or non-2xx).  The returned list records the outbound calls
made, in order. -/
def handleQueryCore (s : HostState) (secrets : List (String × String))
    (healthOk : String → Bool) (deregOk : Bool)
    (forwardResult : String → String → Option SpecResult)
    (userQuery : String) : HResponse × List Effect :=
  if userQuery = "" then (.error 400 "A 'query' nao pode estar vazia.", [])
  else if s.discoveredTools = [] then
    (.error 503 "Nenhum agente especialista disponivel no momento.", [])
  else if isCapabilitiesQuery userQuery then
    let cap := formatCapabilitiesResponse s
    (.okCapabilities cap.1 cap.2, [])
  else
    let decision :=
      match delegateToLLM userQuery with
      | some d => some d
      | none => heuristicRoute userQuery s.discoveredTools
    match decision with
    | none =>
      let cap := formatCapabilitiesResponse s
      (.okCapabilities (explicacaoFallback ++ cap.1) cap.2, [])
    | some d =>
      let targetAgentId := d.owner_agent_id
      let secretToken := (List.lookup targetAgentId secrets).getD ""
      if secretToken = "" then
        (.error 500 ("Erro de seguranca interno: token para o agente " ++
          targetAgentId ++ " nao encontrado."), [])
      else
        match List.lookup targetAgentId s.discoveredAgentsData with
        | none =>
          (.error 500 ("Dados do agente '" ++ targetAgentId ++ "' nao encontrados."), [])
        | some agentInfo =>
          let healthUrl := agentInfo.base_url ++ "/health"
          if healthOk healthUrl then
            match forwardResult d.agent_execute_url userQuery with
            | some sr =>
              (.okAnswer sr.result targetAgentId d.tool_to_use,
               [.probe healthUrl, .forward d.agent_execute_url userQuery])
            | none =>
              (.error 502 "Erro ao comunicar com o agente especialista.",
               [.probe healthUrl, .forward d.agent_execute_url userQuery])
          else
            (.error 503 ("O agente especialista '" ++ targetAgentId ++
              "' esta indisponivel no momento."),
             [.probe healthUrl] ++
               (if targetAgentId = "" then [] else [.deregister targetAgentId]))

/-! ## Anchoring engine (the AI-guide specialist's `/execute`)

The specialist generates one candidate per temperature in `[0.3, 0.6, 0.9]`,
scores each against the raw retrieved documents with
`calcularSimilaridadeMaxima`, anchors the candidates scoring at least `0.35`
and selects among them with
`anchored.reduce((a, b) => (a.score > b.score ? a : b))`.
JavaScript floats are idealized as real numbers here (the similarity involves
`Math.sqrt`), so these definitions are noncomputable. -/

/-- `encodeToVector(text, dim = 128)`: a `dim`-bucket histogram where character
`i` adds `charCodeAt(i) % 10` to bucket `i % dim`. -/
def encodeToVector (text : String) (dim : Nat := 128) : List Nat :=
  text.toList.enum.foldl
    (fun vec p => vec.set (p.1 % dim) (vec.getD (p.1 % dim) 0 + p.2.toNat % 10))
    (List.replicate dim 0)

/-- `a.reduce((s, v, i) => s + v * (b[i] ?? 0), 0)`. -/
def dotNat (a b : List Nat) : Nat :=
  a.enum.foldl (fun s p => s + p.2 * b.getD p.1 0) 0

/-- `a.reduce((s, v) => s + v * v, 0)`. -/
def sumSquares (a : List Nat) : Nat :=
  a.foldl (fun s v => s + v * v) 0

/-- `Math.sqrt(n) || 1`: the norm with the source's falsy-guard against a zero
denominator. -/
noncomputable def sqrtOr1 (n : Nat) : ℝ :=
  if Real.sqrt n = 0 then 1 else Real.sqrt n

/-- `cosineSimilarity(a, b)` of the specialist agent. -/
noncomputable def cosineSimilarity (a b : List Nat) : ℝ :=
  (dotNat a b : ℝ) / (sqrtOr1 (sumSquares a) * sqrtOr1 (sumSquares b))

/-- `Math.max(...sims)`. -/
noncomputable def maxOfList : List ℝ → ℝ
  | [] => 0
  | h :: t => t.foldl max h

/-- `calcularSimilaridadeMaxima(texto, documentos)`: `0` on an empty document
list, otherwise the maximum cosine similarity of the candidate's vector
against each raw document's vector. -/
noncomputable def calcularSimilaridadeMaxima (texto : String) (documentos : List String) : ℝ :=
  match documentos with
  | [] => 0
  | _ =>
    let vText := encodeToVector texto
    let sims := documentos.map (fun d => cosineSimilarity (encodeToVector d) vText)
    maxOfList sims

/-- The configured temperature order of the candidate loop. -/
def temps : List ℚ := [0.3, 0.6, 0.9]

/-- The anchoring threshold (`score >= 0.35`). -/
def anchorThreshold : ℝ := 0.35

/-- One generated candidate: text, the stored anchor flag, score, temperature. -/
structure Candidate where
  text : String
  isAnchor : Bool
  score : ℝ
  temp : ℚ

/-- The candidate loop of `/execute`: one generation per temperature in order;
`gen t = none` models `invokeModelWithTemperature` throwing for that
temperature, which the source logs and skips.  Each produced candidate is
scored against the raw retrieved documents and its anchor flag stored. -/
noncomputable def mkCandidates (gen : ℚ → Option String) (rawDocs : List String) :
    List Candidate :=
  temps.filterMap (fun t => (gen t).map (fun text =>
    ⟨text, decide (anchorThreshold ≤ calcularSimilaridadeMaxima text rawDocs),
     calcularSimilaridadeMaxima text rawDocs, t⟩))

/-- `Nao encontrei material sobre este topico especifico nas minhas diretrizes.` -/
def respostaPadrao : String :=
  "Nao encontrei material sobre este topico especifico nas minhas diretrizes."

/-- `anchored.reduce((a, b) => (a.score > b.score ? a : b))` without its first
step: `h` is the accumulator, `t` the remaining candidates. -/
noncomputable def reduceBest (h : Candidate) (t : List Candidate) : Candidate :=
  t.foldl (fun a b => if a.score > b.score then a else b) h

/-- The selection block of `/execute`: filter the anchored candidates and
reduce to the best, or keep the refusal defaults (`respostaPadrao`,
`bestTemp = null`, `bestScore = 0`). -/
noncomputable def selectAnswer (cs : List Candidate) : String × Option ℚ × ℝ :=
  match cs.filter (fun c => c.isAnchor) with
  | [] => (respostaPadrao, none, 0)
  | h :: t =>
    let best := reduceBest h t
    (best.text, some best.temp, best.score)

/-- `displaySources`/`fontesLine`: drop falsy names, keep the basename
(`s.split('/').pop()`), and join with `' e '`. -/
def fontesLine (sourceNames : List String) : String :=
  let displaySources := (sourceNames.filter (fun s => s != "")).map
    (fun s => (s.splitOn "/").getLastD "")
  if displaySources.isEmpty then "Fontes: -"
  else "Fontes: " ++ String.intercalate " e " displaySources

/-- The `/execute` response body (authorization and request validation aside,
which precede this and are out of the claims' scope). -/
structure ExecResponse where
  answer : String
  chosen_temperature : Option ℚ
  similarity : ℝ

/-- The core of `POST /execute` of the specialist: generate the candidates,
select the anchored best (or the refusal), and append the source-attribution
line to whichever text was chosen. -/
noncomputable def executeCore (gen : ℚ → Option String)
    (rawDocs sourceNames : List String) : ExecResponse :=
  let cs := mkCandidates gen rawDocs
  let sel := selectAnswer cs
  { answer := sel.1 ++ "\n\n" ++ fontesLine sourceNames
    chosen_temperature := sel.2.1
    similarity := sel.2.2 }

/-! ## Shared fixtures for concrete instantiations -/

/-- A discovered AI-guide capability, as flattened by the host. -/
def guiaTool : HTool :=
  ⟨"Guia de IA", "especialista em etica de ia", "ai-guide-agent", "http://ai:8010/execute"⟩

def aiAgentInfo : AgentInfo :=
  ⟨"http://ai:8010", [⟨"Guia de IA", "especialista em etica de ia"⟩]⟩

/-- A host snapshot holding one discovered agent with one capability. -/
def demoHost : HostState := ⟨[guiaTool], [("ai-guide-agent", aiAgentInfo)]⟩

/-- A biology capability whose name matches `biolog` but which fails the AI
substring tests (`guia` in the name, `ia` in the description). -/
def bioTool : HTool := ⟨"biolog-lookup", "fauna e flora", "bio-agent", "http://b/execute"⟩

/-- A valid registration payload. -/
def regPayloadA : RegPayload := ⟨"a1", "http://a1:1", "tok", some []⟩

/-! ## C6 — discovery refresh on an unreachable Registry -/

/-- C6: when the Registry is unreachable during a refresh of the host's
discovery cache, the previous snapshot (`discoveredTools` and
`discoveredAgentsData`) is retained unchanged — nothing is cleared or
partially overwritten; the `catch` branch only logs the soft failure, which
the model reflects by `fetchToolsFromRegistry` being total and returning the
state as is. -/
theorem c6_refresh_retains_snapshot_on_registry_failure (s : HostState) :
    fetchToolsFromRegistry none s = s := rfl

/-! ## C3 — TTL invisibility of stale records -/

/-- C3: the claim requires that in *both* backing-store modes an agent not
re-registered within `T_ttl` is absent from every later `list()`.  The Redis
mode satisfies this (the registered record, with `HEARTBEAT_TTL = 60`,
registered at `t = 0`, is gone from `list_agents` at `t = 61`), but the
in-memory fallback stores an expiry instant (`ttl = 60000` ms) that
`list_agents` never consults: the record registered at `t = 0` is still
listed — `listMem` does not even take the current time as an input.  The
code stores the `ttl` field for no other purpose, so the filtering was
clearly intended: this is a code bug, not a spec error. -/
theorem c3_in_memory_list_ignores_ttl :
    (registerMem 60 0 regPayloadA []).1 = [("a1", ⟨"http://a1:1", [], "tok", 60000⟩)] ∧
    listMem (registerMem 60 0 regPayloadA []).1 = [("a1", ⟨"http://a1:1", []⟩)] ∧
    listRedis 61 (registerRedis 60 0 regPayloadA []).1 = [] := by
  refine ⟨by decide, by decide, by decide⟩

/-! ## C2 — capabilities queries -/

/-- C2 counterexample: with an *empty* discovered-tools snapshot, the host
answers the capabilities query `"o que voce faz"` (which the fixed keyword
list does match) with the 503 no-specialist error, not with the discovered
capability list: the snapshot-emptiness check precedes the capabilities-query
check in the `/query` handler. -/
theorem c2_empty_snapshot_capabilities_query_is_503 :
    isCapabilitiesQuery "o que voce faz" = true ∧
    handleQueryCore ⟨[], []⟩ [] (fun _ => true) true (fun _ _ => none) "o que voce faz" =
      (.error 503 "Nenhum agente especialista disponivel no momento.", []) := by
  refine ⟨by decide, by decide⟩

/-- C2 (amended): whenever the discovered-tools snapshot is non-empty, a query
matching the capabilities keyword list is answered with the full discovered
capability list (HTTP success), regardless of the rest of the snapshot's
content and before any routing; with an empty snapshot the handler returns
503 instead. -/
theorem c2_capabilities_query_returns_discovered_list (s : HostState)
    (secrets : List (String × String)) (healthOk : String → Bool) (deregOk : Bool)
    (fwd : String → String → Option SpecResult) (q : String)
    (hne : s.discoveredTools ≠ []) (hcap : isCapabilitiesQuery q = true) :
    handleQueryCore s secrets healthOk deregOk fwd q =
      (.okCapabilities (formatCapabilitiesResponse s).1 (formatCapabilitiesResponse s).2, []) := by
  have hq : q ≠ "" := by
    intro h
    rw [h] at hcap
    simp [isCapabilitiesQuery] at hcap
  unfold handleQueryCore
  simp [hq, hne, hcap]

/-- C2 witness: the amended theorem applied to a concrete one-agent snapshot. -/
theorem c2_capabilities_query_witness :
    handleQueryCore demoHost [] (fun _ => true) true (fun _ _ => none) "o que voce faz" =
      (.okCapabilities (formatCapabilitiesResponse demoHost).1
        (formatCapabilitiesResponse demoHost).2, []) :=
  c2_capabilities_query_returns_discovered_list demoHost [] (fun _ => true) true
    (fun _ _ => none) "o que voce faz" (by decide) (by decide)

/-! ## C9 — missing credential mapping -/

/-- C9: when routing produced a decision whose owner agent has no entry in
`SPECIALIST_AGENTS_SECRETS`, the `/query` handler returns the 500
internal-security error naming the agent (a response distinct from the
routing-miss capabilities listing) and performs no outbound call at all: no
health probe, no forward, no deregistration. -/
theorem c9_missing_credential_is_500 (s : HostState) (secrets : List (String × String))
    (healthOk : String → Bool) (deregOk : Bool)
    (fwd : String → String → Option SpecResult) (q : String) (d : Decision)
    (hq : q ≠ "") (hne : s.discoveredTools ≠ [])
    (hcap : isCapabilitiesQuery q = false)
    (hroute : heuristicRoute q s.discoveredTools = some d)
    (hsec : List.lookup d.owner_agent_id secrets = none) :
    handleQueryCore s secrets healthOk deregOk fwd q =
      (.error 500 ("Erro de seguranca interno: token para o agente " ++
        d.owner_agent_id ++ " nao encontrado."), []) := by
  unfold handleQueryCore delegateToLLM
  simp [hq, hne, hcap, hroute, hsec]

/-- C9 witness: the concrete one-agent snapshot with an empty credential map. -/
theorem c9_missing_credential_witness :
    handleQueryCore demoHost [] (fun _ => true) true (fun _ _ => none) "ia" =
      (.error 500 ("Erro de seguranca interno: token para o agente " ++
        "ai-guide-agent" ++ " nao encontrado."), []) :=
  c9_missing_credential_is_500 demoHost [] (fun _ => true) true (fun _ _ => none) "ia"
    ⟨"Guia de IA", "ai-guide-agent", "http://ai:8010/execute"⟩
    (by decide) (by decide) (by decide) (by decide) (by decide)

/-! ## C4 — health-probe failure -/

/-- The agent info used by the C4 counterexample: an agent whose id is the
empty string (as could arrive from the registry's store over HTTP). -/
def emptyIdInfo : AgentInfo := ⟨"http://x", []⟩

/-- A tool owned by the empty-id agent which the AI branch of the router
matches by name. -/
def emptyIdTool : HTool := ⟨"guia de ia", "", "", "http://x/execute"⟩

/-- C4 counterexample: the claim promises "exactly one best-effort deregister
call" whenever the health probe of the routed agent fails, but the handler
guards the call with `if (targetAgentId)`: for a routed agent whose id is the
empty string the probe failure produces the 503 response and *zero*
deregistration calls.  The trace below routes `"ia"` to the empty-id agent,
passes the credential and data lookups, fails the probe, and emits only the
probe effect. -/
theorem c4_empty_agent_id_skips_deregistration :
    heuristicRoute "ia" [emptyIdTool] = some ⟨"guia de ia", "", "http://x/execute"⟩ ∧
    handleQueryCore ⟨[emptyIdTool], [("", emptyIdInfo)]⟩ [("", "tok")]
        (fun _ => false) true (fun _ _ => none) "ia" =
      (.error 503 "O agente especialista '' esta indisponivel no momento.",
       [.probe "http://x/health"]) := by
  refine ⟨by decide, by decide⟩

/-- C4 (amended): when the health probe of the routed agent fails, the host
returns the 503 unavailable error to the caller and does not forward the
A2AMessage; it issues exactly one best-effort deregister call for that agent
when the agent id is non-empty (and none when the id is the empty string,
because of the `if (targetAgentId)` guard); the outcome of the deregister
call itself (`deregOk`) never changes the handler's result, as
`requestDeregistration` catches and only logs its own failure. -/
theorem c4_health_probe_failure_deregisters (s : HostState)
    (secrets : List (String × String)) (healthOk : String → Bool) (deregOk : Bool)
    (fwd : String → String → Option SpecResult) (q : String) (d : Decision)
    (tok : String) (info : AgentInfo)
    (hq : q ≠ "") (hne : s.discoveredTools ≠ [])
    (hcap : isCapabilitiesQuery q = false)
    (hroute : heuristicRoute q s.discoveredTools = some d)
    (hsec : List.lookup d.owner_agent_id secrets = some tok) (htok : tok ≠ "")
    (hinfo : List.lookup d.owner_agent_id s.discoveredAgentsData = some info)
    (hhealth : healthOk (info.base_url ++ "/health") = false) :
    handleQueryCore s secrets healthOk deregOk fwd q =
      (.error 503 ("O agente especialista '" ++ d.owner_agent_id ++
        "' esta indisponivel no momento."),
       [.probe (info.base_url ++ "/health")] ++
         (if d.owner_agent_id = "" then [] else [.deregister d.owner_agent_id])) ∧
    (∀ b : Bool, handleQueryCore s secrets healthOk b fwd q =
        handleQueryCore s secrets healthOk deregOk fwd q) := by
  constructor
  · unfold handleQueryCore delegateToLLM
    simp [hq, hne, hcap, hroute, hsec, htok, hinfo, hhealth]
  · intro b
    rfl

/-- C4 witness: a failing probe of the demo agent, with its credential
present; exactly one deregistration is requested. -/
theorem c4_health_probe_failure_witness :
    handleQueryCore demoHost [("ai-guide-agent", "tok")] (fun _ => false) true
        (fun _ _ => none) "ia" =
      (.error 503 ("O agente especialista '" ++ "ai-guide-agent" ++
        "' esta indisponivel no momento."),
       [.probe (aiAgentInfo.base_url ++ "/health")] ++
         (if "ai-guide-agent" = "" then [] else [.deregister "ai-guide-agent"])) ∧
    (∀ b : Bool, handleQueryCore demoHost [("ai-guide-agent", "tok")] (fun _ => false) b
        (fun _ _ => none) "ia" =
      handleQueryCore demoHost [("ai-guide-agent", "tok")] (fun _ => false) true
        (fun _ _ => none) "ia") :=
  c4_health_probe_failure_deregisters demoHost [("ai-guide-agent", "tok")]
    (fun _ => false) true (fun _ _ => none) "ia"
    ⟨"Guia de IA", "ai-guide-agent", "http://ai:8010/execute"⟩ "tok" aiAgentInfo
    (by decide) (by decide) (by decide) (by decide) (by decide) (by decide)
    (by decide) rfl

/-! ## Association-list and Redis-operation algebra (for C5/C8) -/

lemma setKey_setKey {α : Type} (k : String) (v1 v2 : α) (s : List (String × α)) :
    setKey k v2 (setKey k v1 s) = setKey k v2 s := by
  induction s with
  | nil => simp [setKey]
  | cons e t ih =>
    obtain ⟨k', v'⟩ := e
    by_cases h : k' = k
    · simp [setKey, h]
    · simp [setKey, h, ih]

lemma lookup_setKey {α : Type} (k : String) (v : α) (s : List (String × α)) :
    List.lookup k (setKey k v s) = some v := by
  induction s with
  | nil => simp [setKey]
  | cons e t ih =>
    obtain ⟨k', v'⟩ := e
    by_cases h : k' = k
    · simp [setKey, h]
    · have hbe : (k == k') = false := beq_eq_false_iff_ne.mpr (Ne.symm h)
      simp [setKey, h, List.lookup, hbe, ih]

lemma redisSet_redisSet_same (k : String) (v1 v2 : RVal) (s : RedisState) :
    redisSet k v2 (redisSet k v1 s) = redisSet k v2 s := by
  induction s with
  | nil => simp [redisSet]
  | cons e t ih =>
    by_cases h : e.key = k
    · simp [redisSet, h]
    · simp [redisSet, h, ih]

lemma redisSet_redisExpire_same (k : String) (v : RVal) (d : Nat) (s : RedisState) :
    redisSet k v (redisExpire k d s) = redisSet k v s := by
  induction s with
  | nil => simp [redisExpire, redisSet]
  | cons e t ih =>
    by_cases h : e.key = k
    · simp [redisExpire, redisSet, h]
    · simp [redisExpire, redisSet, h, ih]

lemma redisExpire_redisSet_comm (k k' : String) (v : RVal) (d : Nat) (s : RedisState)
    (h : k ≠ k') :
    redisExpire k' d (redisSet k v s) = redisSet k v (redisExpire k' d s) := by
  induction s with
  | nil => simp [redisSet, redisExpire, h]
  | cons e t ih =>
    by_cases h1 : e.key = k
    · simp [redisSet, redisExpire, h1, h, Ne.symm h]
    · by_cases h2 : e.key = k'
      · simp [redisSet, redisExpire, h1, h2, Ne.symm h]
      · simp [redisSet, redisExpire, h1, h2, ih]

lemma redisSet_absorb (k k' : String) (v1 v2 v' : RVal) (s : RedisState) (h : k ≠ k') :
    redisSet k v2 (redisSet k' v' (redisSet k v1 s)) = redisSet k' v' (redisSet k v2 s) := by
  induction s with
  | nil => simp [redisSet, h, Ne.symm h]
  | cons e t ih =>
    by_cases h1 : e.key = k
    · simp [redisSet, h1, h, Ne.symm h]
    · by_cases h2 : e.key = k'
      · simp [redisSet, h1, h2, Ne.symm h, redisSet_redisSet_same]
      · simp [redisSet, h1, h2, ih]

lemma find?_key_redisSet_self (k : String) (v : RVal) (s : RedisState) :
    (redisSet k v s).find? (fun e => e.key == k) = some ⟨k, v, none⟩ := by
  induction s with
  | nil => simp [redisSet]
  | cons e t ih =>
    by_cases h : e.key = k
    · simp [redisSet, h]
    · simp [redisSet, h, List.find?, ih]

lemma find?_key_redisSet_ne (k k' : String) (v : RVal) (s : RedisState) (h : k' ≠ k) :
    (redisSet k' v s).find? (fun e => e.key == k) = s.find? (fun e => e.key == k) := by
  have hbe : (k' == k) = false := beq_eq_false_iff_ne.mpr h
  induction s with
  | nil => simp [redisSet, List.find?, hbe]
  | cons e t ih =>
    by_cases h1 : e.key = k'
    · simp [redisSet, h1, List.find?, hbe]
    · simp [redisSet, h1, List.find?, ih]

lemma find?_key_redisExpire_ne (k k' : String) (d : Nat) (s : RedisState) (h : k' ≠ k) :
    (redisExpire k' d s).find? (fun e => e.key == k) = s.find? (fun e => e.key == k) := by
  have hbe : (k' == k) = false := beq_eq_false_iff_ne.mpr h
  induction s with
  | nil => simp [redisExpire]
  | cons e t ih =>
    by_cases h1 : e.key = k'
    · simp [redisExpire, h1, List.find?, hbe]
    · simp [redisExpire, h1, List.find?, ih]

lemma find?_key_redisExpire_self (k : String) (d : Nat) (s : RedisState) (e : REntry)
    (h : s.find? (fun e => e.key == k) = some e) :
    (redisExpire k d s).find? (fun e => e.key == k) = some ⟨e.key, e.val, some d⟩ := by
  induction s with
  | nil => simp at h
  | cons a t ih =>
    by_cases h1 : a.key = k
    · have hbe : (a.key == k) = true := beq_iff_eq.mpr h1
      simp only [List.find?, hbe] at h
      obtain rfl : a = e := Option.some.inj h
      rw [show redisExpire k d (a :: t) = ⟨a.key, a.val, some d⟩ :: t by
        simp [redisExpire, h1]]
      simp only [List.find?, hbe]
    · have hbe : (a.key == k) = false := beq_eq_false_iff_ne.mpr h1
      simp only [List.find?, hbe] at h
      rw [show redisExpire k d (a :: t) = a :: redisExpire k d t by
        simp [redisExpire, h1]]
      simp only [List.find?, hbe]
      exact ih h

lemma dataKey_ne_secretKey (a b : String) : dataKey a ≠ secretKey b := by
  intro h
  have h1 : (dataKey a).data.head? = some 'a' := rfl
  rw [h] at h1
  have h2 : (secretKey b).data.head? = some 's' := rfl
  have h3 : ('s' : Char) = 'a' := Option.some.inj (h2.symm.trans h1)
  exact absurd h3 (by decide)

/-- The state transformation of a valid in-memory register. -/
lemma registerMem_eq (ttlS now : Nat) (p : RegPayload) (s : MemState) (tools : List RTool)
    (htools : p.tools = some tools)
    (hid : trimStr p.agent_id ≠ "") (hb : trimStr p.base_url ≠ "")
    (hs : trimStr p.secret_token ≠ "") :
    (registerMem ttlS now p s).1 =
      setKey (trimStr p.agent_id)
        ⟨trimStr p.base_url, tools, trimStr p.secret_token, now + ttlS * 1000⟩ s := by
  unfold registerMem
  rw [htools]
  simp [hid, hb, hs]

/-- The state transformation of a valid Redis register: two `SET`s followed by
two `EXPIRE`s. -/
lemma registerRedis_eq (ttlS now : Nat) (p : RegPayload) (s : RedisState)
    (tools : List RTool) (htools : p.tools = some tools)
    (hid : trimStr p.agent_id ≠ "") (hb : trimStr p.base_url ≠ "")
    (hs : trimStr p.secret_token ≠ "") :
    (registerRedis ttlS now p s).1 =
      redisExpire (secretKey (trimStr p.agent_id)) (now + ttlS)
        (redisExpire (dataKey (trimStr p.agent_id)) (now + ttlS)
          (redisSet (secretKey (trimStr p.agent_id)) (.secret (trimStr p.secret_token))
            (redisSet (dataKey (trimStr p.agent_id))
              (.data (trimStr p.base_url) tools) s))) := by
  unfold registerRedis
  rw [htools]
  simp [hid, hb, hs]

/-! ## C5 — register is idempotent and last-write-wins -/

/-- C5: in both modes, registering an agent twice leaves the registry in the
state of a single register with the second payload (the whole backing store,
not just that record, is equal), `list()` thereafter equals the listing after
that single register, and the surviving record carries the second call's
expiry — `t2 + T_ttl` (seconds for Redis, `t2 + T_ttl * 1000` ms for the
in-memory record). -/
theorem c5_register_idempotent_last_write_wins (ttlS t1 t2 : Nat) (p1 p2 : RegPayload)
    (s : MemState) (r : RedisState)
    (h1 : validPayload p1) (h2 : validPayload p2)
    (hid : trimStr p1.agent_id = trimStr p2.agent_id) :
    (registerMem ttlS t2 p2 (registerMem ttlS t1 p1 s).1).1 =
        (registerMem ttlS t2 p2 s).1 ∧
    listMem (registerMem ttlS t2 p2 (registerMem ttlS t1 p1 s).1).1 =
        listMem (registerMem ttlS t2 p2 s).1 ∧
    List.lookup (trimStr p2.agent_id)
        (registerMem ttlS t2 p2 (registerMem ttlS t1 p1 s).1).1 =
      some ⟨trimStr p2.base_url, p2.tools.getD [], trimStr p2.secret_token,
        t2 + ttlS * 1000⟩ ∧
    (registerRedis ttlS t2 p2 (registerRedis ttlS t1 p1 r).1).1 =
        (registerRedis ttlS t2 p2 r).1 ∧
    (registerRedis ttlS t2 p2 (registerRedis ttlS t1 p1 r).1).1.find?
        (fun e => e.key == dataKey (trimStr p2.agent_id)) =
      some ⟨dataKey (trimStr p2.agent_id),
        .data (trimStr p2.base_url) (p2.tools.getD []), some (t2 + ttlS)⟩ := by
  obtain ⟨hid1, hb1, hs1, hsome1⟩ := h1
  obtain ⟨hid2, hb2, hs2, hsome2⟩ := h2
  obtain ⟨tools1, htools1⟩ := Option.isSome_iff_exists.mp hsome1
  obtain ⟨tools2, htools2⟩ := Option.isSome_iff_exists.mp hsome2
  have hgetD : p2.tools.getD [] = tools2 := by rw [htools2]; rfl
  have hmem :
      (registerMem ttlS t2 p2 (registerMem ttlS t1 p1 s).1).1 =
        (registerMem ttlS t2 p2 s).1 := by
    rw [registerMem_eq ttlS t1 p1 s tools1 htools1 hid1 hb1 hs1,
        registerMem_eq ttlS t2 p2 _ tools2 htools2 hid2 hb2 hs2,
        registerMem_eq ttlS t2 p2 s tools2 htools2 hid2 hb2 hs2, hid,
        setKey_setKey]
  have hd2 := dataKey_ne_secretKey (trimStr p2.agent_id) (trimStr p2.agent_id)
  have hredis :
      (registerRedis ttlS t2 p2 (registerRedis ttlS t1 p1 r).1).1 =
        (registerRedis ttlS t2 p2 r).1 := by
    rw [registerRedis_eq ttlS t1 p1 r tools1 htools1 hid1 hb1 hs1,
        registerRedis_eq ttlS t2 p2 _ tools2 htools2 hid2 hb2 hs2,
        registerRedis_eq ttlS t2 p2 r tools2 htools2 hid2 hb2 hs2, hid]
    rw [← redisExpire_redisSet_comm _ _ _ _ _ hd2, redisSet_redisExpire_same,
        redisSet_redisExpire_same, redisSet_absorb _ _ _ _ _ _ hd2,
        redisSet_redisSet_same]
  refine ⟨hmem, by rw [hmem], ?_, hredis, ?_⟩
  · rw [hmem, registerMem_eq ttlS t2 p2 s tools2 htools2 hid2 hb2 hs2,
        lookup_setKey, hgetD]
  · rw [hredis, registerRedis_eq ttlS t2 p2 r tools2 htools2 hid2 hb2 hs2, hgetD]
    have hstep1 :
        (redisSet (secretKey (trimStr p2.agent_id)) (.secret (trimStr p2.secret_token))
            (redisSet (dataKey (trimStr p2.agent_id))
              (.data (trimStr p2.base_url) tools2) r)).find?
          (fun e => e.key == dataKey (trimStr p2.agent_id)) =
        some ⟨dataKey (trimStr p2.agent_id),
          .data (trimStr p2.base_url) tools2, none⟩ := by
      rw [find?_key_redisSet_ne _ _ _ _ (Ne.symm hd2), find?_key_redisSet_self]
    have hstep2 := find?_key_redisExpire_self (dataKey (trimStr p2.agent_id))
      (t2 + ttlS) _ _ hstep1
    rw [find?_key_redisExpire_ne _ _ _ _ (Ne.symm hd2), hstep2]

/-- A second valid payload for the same agent id with different data. -/
def regPayloadA2 : RegPayload := ⟨"a1", "http://a1:2", "tok2", some [⟨"t", "d"⟩]⟩

/-- C5 witness: registering `a1` twice with different payloads, from the empty
stores. -/
theorem c5_register_idempotent_witness :
    (registerMem 60 0 regPayloadA2 (registerMem 60 0 regPayloadA []).1).1 =
        (registerMem 60 0 regPayloadA2 []).1 ∧
    listMem (registerMem 60 0 regPayloadA2 (registerMem 60 0 regPayloadA []).1).1 =
        listMem (registerMem 60 0 regPayloadA2 []).1 ∧
    List.lookup (trimStr regPayloadA2.agent_id)
        (registerMem 60 0 regPayloadA2 (registerMem 60 0 regPayloadA []).1).1 =
      some ⟨trimStr regPayloadA2.base_url, regPayloadA2.tools.getD [],
        trimStr regPayloadA2.secret_token, 0 + 60 * 1000⟩ ∧
    (registerRedis 60 0 regPayloadA2 (registerRedis 60 0 regPayloadA []).1).1 =
        (registerRedis 60 0 regPayloadA2 []).1 ∧
    (registerRedis 60 0 regPayloadA2 (registerRedis 60 0 regPayloadA []).1).1.find?
        (fun e => e.key == dataKey (trimStr regPayloadA2.agent_id)) =
      some ⟨dataKey (trimStr regPayloadA2.agent_id),
        .data (trimStr regPayloadA2.base_url) (regPayloadA2.tools.getD []),
        some (0 + 60)⟩ :=
  c5_register_idempotent_last_write_wins 60 0 0 regPayloadA regPayloadA2 [] []
    (by decide) (by decide) (by decide)

/-! ## C8 — `list()` never depends on the stored secrets -/

/-- C8: `list_agents` exposes only `base_url` and the tool list, and its
output is independent of the stored secret tokens, in both modes.  In-memory:
rewriting every record's `secret_token` by an arbitrary function leaves
`listMem` unchanged.  Redis: secrets live under `secret:` keys, which the
`KEYS agent:*` scan never selects, so any two stores that agree on their live
`agent:` entries — in particular, two stores differing only in `secret:`
values — produce the same `list_agents` output. -/
theorem c8_list_independent_of_secrets (s : MemState)
    (f : String → MemRecord → String) (now : Nat) (r1 r2 : RedisState)
    (h : r1.filter (fun e => strStartsWith e.key "agent:" && liveEntry now e) =
         r2.filter (fun e => strStartsWith e.key "agent:" && liveEntry now e)) :
    listMem (s.map (fun e =>
        (e.1, (⟨e.2.base_url, e.2.tools, f e.1 e.2, e.2.ttl⟩ : MemRecord)))) =
      listMem s ∧
    listRedis now r1 = listRedis now r2 := by
  constructor
  · have hgen : ∀ (l : MemState) (out : List (String × PubInfo)),
        (l.map (fun e =>
            (e.1, (⟨e.2.base_url, e.2.tools, f e.1 e.2, e.2.ttl⟩ : MemRecord)))).foldl
          (fun out e => setKey e.1 ⟨e.2.base_url, e.2.tools⟩ out) out =
        l.foldl (fun out e => setKey e.1 ⟨e.2.base_url, e.2.tools⟩ out) out := by
      intro l
      induction l with
      | nil => intro out; rfl
      | cons e t ih =>
        intro out
        simp only [List.map_cons, List.foldl_cons]
        exact ih _
    exact hgen s []
  · unfold listRedis
    rw [h]

/-- C8 witness: two Redis stores differing only in the value under
`secret:a`, and an in-memory store whose secret is rewritten. -/
theorem c8_list_independent_of_secrets_witness :
    listMem ([("a", (⟨"u", [], "sec", 5⟩ : MemRecord))].map (fun e =>
        (e.1, (⟨e.2.base_url, e.2.tools, (fun _ _ => "other") e.1 e.2, e.2.ttl⟩ : MemRecord)))) =
      listMem [("a", (⟨"u", [], "sec", 5⟩ : MemRecord))] ∧
    listRedis 0 [⟨"agent:a", .data "u" [], some 100⟩, ⟨"secret:a", .secret "s1", some 100⟩] =
      listRedis 0 [⟨"agent:a", .data "u" [], some 100⟩, ⟨"secret:a", .secret "s2", some 100⟩] :=
  c8_list_independent_of_secrets [("a", ⟨"u", [], "sec", 5⟩)] (fun _ _ => "other") 0
    [⟨"agent:a", .data "u" [], some 100⟩, ⟨"secret:a", .secret "s1", some 100⟩]
    [⟨"agent:a", .data "u" [], some 100⟩, ⟨"secret:a", .secret "s2", some 100⟩]
    (by decide)

/-! ## C7 — the heuristic router -/

/-- C7 counterexample: for the query `"ia biologia"` the AI keyword set is the
first to match (`'ia'` is a substring), and no capability of the snapshot
passes the AI substring test, so the claim says the router's result is
absent; the code instead falls through to the biology keyword set and returns
the biology capability. -/
theorem c7_ai_match_falls_through_to_biology :
    aiKw.any (fun k => strIncludes (lowerStr "ia biologia") k) = true ∧
    [bioTool].find? aiToolPred = none ∧
    heuristicRoute "ia biologia" [bioTool] =
      some ⟨"biolog-lookup", "bio-agent", "http://b/execute"⟩ := by
  refine ⟨by decide, by decide, by decide⟩

/-- C7 (amended): the router lower-cases the query and tests the AI keyword
set and then the biology keyword set; a matching keyword set selects the
first capability in snapshot order satisfying its substring test
(`find?`); when the AI stage yields nothing — because its keyword set did
not match *or* because no capability passed its substring test — the router
falls through to the biology stage; the result is absent only when both
stages yield nothing, and in that case the `/query` handler responds with
the capabilities listing (HTTP success) rather than failing silently. -/
theorem c7_router_keyword_stages (q : String) (tools : List HTool)
    (hq : q ≠ "") (ht : tools ≠ []) :
    (aiKw.any (fun k => strIncludes (lowerStr q) k) = true →
      ∀ t, tools.find? aiToolPred = some t →
        heuristicRoute q tools = some ⟨t.name, t.owner_agent_id, t.agent_execute_url⟩) ∧
    ((aiKw.any (fun k => strIncludes (lowerStr q) k) = false ∨ tools.find? aiToolPred = none) →
      bioKw.any (fun k => strIncludes (lowerStr q) k) = true →
      ∀ t, tools.find? bioToolPred = some t →
        heuristicRoute q tools = some ⟨t.name, t.owner_agent_id, t.agent_execute_url⟩) ∧
    ((aiKw.any (fun k => strIncludes (lowerStr q) k) = false ∨ tools.find? aiToolPred = none) →
      (bioKw.any (fun k => strIncludes (lowerStr q) k) = false ∨ tools.find? bioToolPred = none) →
      heuristicRoute q tools = none) ∧
    (∀ (s : HostState) (secrets : List (String × String)) (healthOk : String → Bool)
        (deregOk : Bool) (fwd : String → String → Option SpecResult),
      s.discoveredTools = tools → isCapabilitiesQuery q = false →
      heuristicRoute q tools = none →
      handleQueryCore s secrets healthOk deregOk fwd q =
        (.okCapabilities (explicacaoFallback ++ (formatCapabilitiesResponse s).1)
          (formatCapabilitiesResponse s).2, [])) := by
  have hcond : ¬(q = "" ∨ tools = []) := by simp [hq, ht]
  refine ⟨?_, ?_, ?_, ?_⟩
  · intro hai t hfind
    simp [heuristicRoute, hcond, hai, hfind]
  · intro hmiss hbio t hfind
    rcases hmiss with h | h <;> simp [heuristicRoute, hcond, h, hbio, hfind]
  · intro hmiss hbmiss
    rcases hmiss with h | h <;> rcases hbmiss with h' | h' <;>
      simp [heuristicRoute, hcond, h, h']
  · intro s secrets healthOk deregOk fwd hs hcap hnone
    have hne : s.discoveredTools ≠ [] := by rw [hs]; exact ht
    unfold handleQueryCore delegateToLLM
    simp [hq, hne, hcap, hs, hnone, ht]

/-- C7 witness: the amended characterization at the biology query of the
spec's own test table, over a one-capability snapshot. -/
theorem c7_router_keyword_stages_witness :
    (aiKw.any (fun k => strIncludes (lowerStr "biologia marinha") k) = true →
      ∀ t, [bioTool].find? aiToolPred = some t →
        heuristicRoute "biologia marinha" [bioTool] =
          some ⟨t.name, t.owner_agent_id, t.agent_execute_url⟩) ∧
    ((aiKw.any (fun k => strIncludes (lowerStr "biologia marinha") k) = false ∨
        [bioTool].find? aiToolPred = none) →
      bioKw.any (fun k => strIncludes (lowerStr "biologia marinha") k) = true →
      ∀ t, [bioTool].find? bioToolPred = some t →
        heuristicRoute "biologia marinha" [bioTool] =
          some ⟨t.name, t.owner_agent_id, t.agent_execute_url⟩) ∧
    ((aiKw.any (fun k => strIncludes (lowerStr "biologia marinha") k) = false ∨
        [bioTool].find? aiToolPred = none) →
      (bioKw.any (fun k => strIncludes (lowerStr "biologia marinha") k) = false ∨
        [bioTool].find? bioToolPred = none) →
      heuristicRoute "biologia marinha" [bioTool] = none) ∧
    (∀ (s : HostState) (secrets : List (String × String)) (healthOk : String → Bool)
        (deregOk : Bool) (fwd : String → String → Option SpecResult),
      s.discoveredTools = [bioTool] → isCapabilitiesQuery "biologia marinha" = false →
      heuristicRoute "biologia marinha" [bioTool] = none →
      handleQueryCore s secrets healthOk deregOk fwd "biologia marinha" =
        (.okCapabilities (explicacaoFallback ++ (formatCapabilitiesResponse s).1)
          (formatCapabilitiesResponse s).2, [])) :=
  c7_router_keyword_stages "biologia marinha" [bioTool] (by decide) (by decide)

end LandNOA

namespace LandNOA

/-! ## Anchoring lemmas (C1/C10) -/

lemma calcular_nil (texto : String) : calcularSimilaridadeMaxima texto [] = 0 := rfl

/-- Any member of the candidate list comes from a temperature of the
configured order with a successful generation, and carries the score of its
text against the raw documents together with the stored anchor flag. -/
lemma mem_mkCandidates {gen : ℚ → Option String} {rawDocs : List String}
    {c : Candidate} (hc : c ∈ mkCandidates gen rawDocs) :
    ∃ t text, t ∈ temps ∧ gen t = some text ∧
      c = ⟨text, decide (anchorThreshold ≤ calcularSimilaridadeMaxima text rawDocs),
        calcularSimilaridadeMaxima text rawDocs, t⟩ := by
  unfold mkCandidates at hc
  simp only [List.mem_filterMap] at hc
  obtain ⟨t, ht, hmap⟩ := hc
  cases hgen : gen t with
  | none => rw [hgen] at hmap; simp at hmap
  | some text =>
    rw [hgen] at hmap
    simp only [Option.map_some', Option.some.injEq] at hmap
    exact ⟨t, text, ht, hgen, hmap.symm⟩

/-! ## C10 — empty retrieval forces the refusal -/

/-- C10: when retrieval returns no documents, every generated candidate's
anchor score is exactly `0` (the empty-documents guard of
`calcularSimilaridadeMaxima`), hence no candidate is anchored, and the
`/execute` response carries the fixed refusal text followed by the sources
line, `chosen_temperature = null` and `similarity = 0`. -/
theorem c10_empty_retrieval_refuses (gen : ℚ → Option String)
    (sourceNames : List String) :
    (∀ c ∈ mkCandidates gen [], c.score = 0 ∧ c.isAnchor = false) ∧
    (executeCore gen [] sourceNames).answer =
      respostaPadrao ++ "\n\n" ++ fontesLine sourceNames ∧
    (executeCore gen [] sourceNames).chosen_temperature = none ∧
    (executeCore gen [] sourceNames).similarity = 0 := by
  have hsc : ∀ c ∈ mkCandidates gen [], c.score = 0 ∧ c.isAnchor = false := by
    intro c hc
    obtain ⟨t, text, ht, hgen, rfl⟩ := mem_mkCandidates hc
    refine ⟨calcular_nil text, ?_⟩
    show decide (anchorThreshold ≤ calcularSimilaridadeMaxima text []) = false
    rw [calcular_nil]
    exact decide_eq_false (by norm_num [anchorThreshold])
  have hfilter : (mkCandidates gen []).filter (fun c => c.isAnchor) = [] := by
    rw [List.filter_eq_nil_iff]
    intro c hc
    simp [(hsc c hc).2]
  have hsel : selectAnswer (mkCandidates gen []) = (respostaPadrao, none, 0) := by
    unfold selectAnswer
    rw [hfilter]
  refine ⟨hsc, ?_, ?_, ?_⟩ <;> simp only [executeCore, hsel]

end LandNOA

namespace LandNOA

/-- The JS `reduce((a, b) => (a.score > b.score ? a : b))` over the anchored
candidates: the result is an element of maximal score; every element strictly
after it scores strictly less (so among equal maxima the *last* one wins),
and when the whole tail scores strictly below the head the head is kept. -/
lemma reduceBest_spec (h : Candidate) (t : List Candidate) :
    h.score ≤ (reduceBest h t).score ∧
    (∀ d ∈ t, d.score ≤ (reduceBest h t).score) ∧
    ((reduceBest h t = h ∧ ∀ d ∈ t, d.score < h.score) ∨
      ∃ pre post, t = pre ++ (reduceBest h t) :: post ∧
        ∀ d ∈ post, d.score < (reduceBest h t).score) := by
  induction t generalizing h with
  | nil => simp [reduceBest]
  | cons b t ih =>
    have hstep : reduceBest h (b :: t) =
        reduceBest (if h.score > b.score then h else b) t := rfl
    by_cases hb : h.score > b.score
    · rw [hstep, if_pos hb]
      obtain ⟨ih1, ih2, ih3⟩ := ih h
      refine ⟨ih1, ?_, ?_⟩
      · intro d hd
        rcases List.mem_cons.mp hd with rfl | hd
        · exact le_trans (le_of_lt hb) ih1
        · exact ih2 d hd
      · rcases ih3 with ⟨heq, hall⟩ | ⟨pre, post, heqt, hpost⟩
        · refine Or.inl ⟨heq, ?_⟩
          intro d hd
          rcases List.mem_cons.mp hd with rfl | hd
          · exact hb
          · exact hall d hd
        · exact Or.inr ⟨b :: pre, post, by rw [List.cons_append, ← heqt], hpost⟩
    · rw [hstep, if_neg hb]
      push_neg at hb
      obtain ⟨ih1, ih2, ih3⟩ := ih b
      refine ⟨le_trans hb ih1, ?_, ?_⟩
      · intro d hd
        rcases List.mem_cons.mp hd with rfl | hd
        · exact ih1
        · exact ih2 d hd
      · rcases ih3 with ⟨heq, hall⟩ | ⟨pre, post, heqt, hpost⟩
        · refine Or.inr ⟨[], t, ?_, ?_⟩
          · rw [heq]
            rfl
          · rw [heq]
            exact hall
        · exact Or.inr ⟨b :: pre, post, by rw [List.cons_append, ← heqt], hpost⟩

/-! ## C1 — the anchoring selection -/

/-- C1 (amended): for every `/execute` run, a candidate is anchored iff its
similarity score against the raw retrieved documents is at least `0.35`;
if no candidate is anchored the answer text is the fixed refusal string
(followed by the sources line) and `chosen_temperature` is null; if some
candidate is anchored, the answer text is that of an anchored candidate of
maximal score — and among equally-scored maxima the *latest* generated
candidate (the highest temperature in the configured order `[0.3, 0.6, 0.9]`)
is selected, every anchored candidate after the chosen one scoring strictly
less. -/
theorem c1_anchoring_selects_max_score_latest_tie (gen : ℚ → Option String)
    (rawDocs sourceNames : List String) :
    (∀ c ∈ mkCandidates gen rawDocs, c.isAnchor = true ↔
      anchorThreshold ≤ c.score) ∧
    ((mkCandidates gen rawDocs).filter (fun c => c.isAnchor) = [] →
      (executeCore gen rawDocs sourceNames).answer =
        respostaPadrao ++ "\n\n" ++ fontesLine sourceNames ∧
      (executeCore gen rawDocs sourceNames).chosen_temperature = none) ∧
    (∀ h t, (mkCandidates gen rawDocs).filter (fun c => c.isAnchor) = h :: t →
      ∃ pre c post, h :: t = pre ++ c :: post ∧
        (executeCore gen rawDocs sourceNames).answer =
          c.text ++ "\n\n" ++ fontesLine sourceNames ∧
        (executeCore gen rawDocs sourceNames).chosen_temperature = some c.temp ∧
        (∀ d ∈ h :: t, d.score ≤ c.score) ∧
        (∀ d ∈ post, d.score < c.score)) := by
  refine ⟨?_, ?_, ?_⟩
  · intro c hc
    obtain ⟨t, text, ht, hgen, rfl⟩ := mem_mkCandidates hc
    show decide (anchorThreshold ≤ calcularSimilaridadeMaxima text rawDocs) = true ↔ _
    exact decide_eq_true_iff
  · intro hfilter
    have hsel : selectAnswer (mkCandidates gen rawDocs) = (respostaPadrao, none, 0) := by
      unfold selectAnswer
      rw [hfilter]
    constructor <;> simp only [executeCore, hsel]
  · intro h t hfilter
    have hsel : selectAnswer (mkCandidates gen rawDocs) =
        ((reduceBest h t).text, some (reduceBest h t).temp, (reduceBest h t).score) := by
      unfold selectAnswer
      rw [hfilter]
    obtain ⟨h1, h2, h3⟩ := reduceBest_spec h t
    rcases h3 with ⟨heq, hall⟩ | ⟨pre, post, heqt, hpost⟩
    · refine ⟨[], reduceBest h t, t, by rw [heq]; rfl, ?_, ?_, ?_, ?_⟩
      · simp only [executeCore, hsel]
      · simp only [executeCore, hsel]
      · intro d hd
        rcases List.mem_cons.mp hd with rfl | hd
        · exact h1
        · exact h2 d hd
      · rw [heq]
        exact hall
    · refine ⟨h :: pre, reduceBest h t, post, by rw [List.cons_append, ← heqt], ?_, ?_, ?_, ?_⟩
      · simp only [executeCore, hsel]
      · simp only [executeCore, hsel]
      · intro d hd
        rcases List.mem_cons.mp hd with rfl | hd
        · exact h1
        · exact h2 d hd
      · exact hpost

end LandNOA

namespace LandNOA

/-! ## C1 counterexample: equal scores select the latest temperature -/

/-- Generation outcomes producing the text `"a"` at temperature `0.3`, the
text `"da"` at `0.6` and a generation failure at `0.9`. -/
def c1Gen : ℚ → Option String :=
  fun t => if t = 0.3 then some "a" else if t = 0.6 then some "da" else none

lemma sqrt_forty_nine : Real.sqrt 49 = 7 := by
  rw [show (49 : ℝ) = 7 ^ 2 by norm_num]
  exact Real.sqrt_sq (by norm_num)

lemma sqrtOr1_forty_nine : sqrtOr1 49 = 7 := by
  unfold sqrtOr1
  rw [show ((49 : Nat) : ℝ) = (49 : ℝ) by norm_num, sqrt_forty_nine]
  norm_num

lemma cos_a_a : cosineSimilarity (encodeToVector "a") (encodeToVector "a") = 1 := by
  unfold cosineSimilarity
  rw [show dotNat (encodeToVector "a") (encodeToVector "a") = 49 from by decide,
      show sumSquares (encodeToVector "a") = 49 from by decide, sqrtOr1_forty_nine]
  norm_num

lemma cos_da_da : cosineSimilarity (encodeToVector "da") (encodeToVector "da") = 1 := by
  unfold cosineSimilarity
  rw [show dotNat (encodeToVector "da") (encodeToVector "da") = 49 from by decide,
      show sumSquares (encodeToVector "da") = 49 from by decide, sqrtOr1_forty_nine]
  norm_num

lemma cos_da_a : cosineSimilarity (encodeToVector "da") (encodeToVector "a") = 0 := by
  unfold cosineSimilarity
  rw [show dotNat (encodeToVector "da") (encodeToVector "a") = 0 from by decide]
  norm_num

lemma cos_a_da : cosineSimilarity (encodeToVector "a") (encodeToVector "da") = 0 := by
  unfold cosineSimilarity
  rw [show dotNat (encodeToVector "a") (encodeToVector "da") = 0 from by decide]
  norm_num

lemma calc_a_docs : calcularSimilaridadeMaxima "a" ["a", "da"] = 1 := by
  have hstep : calcularSimilaridadeMaxima "a" ["a", "da"] =
      maxOfList [cosineSimilarity (encodeToVector "a") (encodeToVector "a"),
        cosineSimilarity (encodeToVector "da") (encodeToVector "a")] := rfl
  rw [hstep, cos_a_a, cos_da_a]
  simp [maxOfList]

lemma calc_da_docs : calcularSimilaridadeMaxima "da" ["a", "da"] = 1 := by
  have hstep : calcularSimilaridadeMaxima "da" ["a", "da"] =
      maxOfList [cosineSimilarity (encodeToVector "a") (encodeToVector "da"),
        cosineSimilarity (encodeToVector "da") (encodeToVector "da")] := rfl
  rw [hstep, cos_a_da, cos_da_da]
  simp [maxOfList]

lemma c1Gen_candidates : mkCandidates c1Gen ["a", "da"] =
    [⟨"a", true, 1, 0.3⟩, ⟨"da", true, 1, 0.6⟩] := by
  have hdec : decide (anchorThreshold ≤ (1 : ℝ)) = true :=
    decide_eq_true (by norm_num [anchorThreshold])
  have h3 : c1Gen 0.3 = some "a" := by norm_num [c1Gen]
  have h6 : c1Gen 0.6 = some "da" := by norm_num [c1Gen]
  have h9 : c1Gen 0.9 = none := by norm_num [c1Gen]
  unfold mkCandidates temps
  simp only [List.filterMap_cons, List.filterMap_nil, h3, h6, h9, Option.map_some',
    Option.map_none']
  rw [calc_a_docs, calc_da_docs, hdec]

/-- C1 counterexample: with raw documents `["a", "da"]` and generations
`"a"` (temperature 0.3) and `"da"` (temperature 0.6), both candidates are
anchored with the *same* score `1`, yet the answer text returned is that of
the temperature-0.6 candidate (`"da"`), not that of the earliest temperature
as the claim states: the `reduce` keeps the later candidate on ties. -/
theorem c1_tie_breaks_to_latest_not_earliest :
    mkCandidates c1Gen ["a", "da"] = [⟨"a", true, 1, 0.3⟩, ⟨"da", true, 1, 0.6⟩] ∧
    (executeCore c1Gen ["a", "da"] []).answer = "da" ++ "\n\n" ++ "Fontes: -" ∧
    (executeCore c1Gen ["a", "da"] []).chosen_temperature = some 0.6 ∧
    ("da" : String) ≠ "a" := by
  have hmk := c1Gen_candidates
  have hfilter : (mkCandidates c1Gen ["a", "da"]).filter (fun c => c.isAnchor) =
      [⟨"a", true, 1, 0.3⟩, ⟨"da", true, 1, 0.6⟩] := by
    rw [hmk]
    rfl
  have hred : reduceBest (⟨"a", true, 1, 0.3⟩ : Candidate) [⟨"da", true, 1, 0.6⟩] =
      ⟨"da", true, 1, 0.6⟩ := by
    unfold reduceBest
    simp
  have hsel : selectAnswer (mkCandidates c1Gen ["a", "da"]) =
      ("da", some 0.6, 1) := by
    unfold selectAnswer
    rw [hfilter]
    simp only [List.foldl]
    rw [hred]
  refine ⟨hmk, ?_, ?_, by decide⟩ <;> simp only [executeCore, hsel] <;> rfl

end LandNOA
